import Mathlib

/-
Verification of the steady-state detector of juju-wait
(src/juju_wait/__init__.py) against its natural-language specification.

The detector is the body of one iteration of the polling loop in `wait`:
it classifies every unit of a fleet status snapshot, optionally probes
log tails of units whose agent reports no fine-grained state, and decides
READY / NOT-READY / FAILED.  We embed one loop iteration as the pure
function `evaluate (now, probe, snapshot, prev_logs)`:

  * JSON status fields that `wait` reads are embedded as `Option`-valued
    record fields (`unit.get(...)` returning `None` becomes `none`);
  * timestamps are modelled as integers counting seconds; `datetime.now()`
    becomes the explicit parameter `now`; `parse_ts` applied to an absent
    timestamp raises `TypeError` in Python (`strptime` requires a `str`),
    which we model as the abort value `ClassAbort.typeError`;
  * `sys.exit(1)` on a unit in error state is the abort value
    `ClassAbort.unitError`;
  * the `juju run` log-tail probe is an oracle `probe : String → String`
    (the collaborator contract `ProbeActivity` returns a string);
  * Python sets become `Finset String`; the `prev_logs` dict becomes the
    map `ProbeMap := String → Option String` (`dict.get` is application).
-/

namespace JujuWait

/-- One unit's status record, holding exactly the fields `wait` reads:
`life`, `agent-state`, `agent-state-info`, `agent-status.current` and
`agent-status.since` (the latter already parsed to seconds; `none` models
an absent field, as for Juju 1.23 agents that report no `agent-status`). -/
structure UnitStatus where
  life : Option String
  agentState : Option String
  agentStateInfo : Option String
  agentStatusCurrent : Option String
  agentStatusSince : Option Int
deriving DecidableEq

/-- One service's status record: its `life` field and its units mapping,
in JSON document order. -/
structure ServiceStatus where
  life : Option String
  units : List (String × UnitStatus)
deriving DecidableEq

/-- The `services` mapping of the status document, in document order. -/
abbrev Snapshot := List (String × ServiceStatus)

/-- The `prev_logs` / `logs` dict: unit name to stored probe string.
Application is Python `dict.get` (absent key gives `none`). -/
abbrev ProbeMap := String → Option String

/-- The empty probe map: `prev_logs = {}` at loop start. -/
def emptyProbes : ProbeMap := fun _ => none

/-- IDLE_CONFIRMATION of the source: `timedelta(seconds=5)`. -/
def IDLE_CONFIRMATION : Int := 5

/-- Abnormal terminations of one classification pass. -/
inductive ClassAbort where
  /-- `parse_ts(None)`: `datetime.strptime` raises `TypeError` when the
  `since` field is absent, which kills the process. -/
  | typeError : ClassAbort
  /-- `sys.exit(1)` after `logging.error("{} failed: {}")` for a unit in
  `error` agent state; carries the unit name and its `agent-state-info`. -/
  | unitError (uname : String) (info : Option String) : ClassAbort
deriving DecidableEq

/-- `parse_ts` of the source: parses the Juju timestamp.  Timestamps are
modelled as already-numeric seconds, so a present field parses to itself;
an absent field makes `strptime` raise `TypeError`. -/
def parse_ts : Option Int → Except ClassAbort Int
  | none => Except.error ClassAbort.typeError
  | some t => Except.ok t

/-- Python membership test `x in ('dying', 'dead')` on an optional string
(`None in ('dying', 'dead')` is false). -/
def lifeDyingDeadB (l : Option String) : Bool :=
  l == some "dying" || l == some "dead"

/-- `alive = unit.get('life') not in ('dying', 'dead')`. -/
def aliveB (u : UnitStatus) : Bool := !(lifeDyingDeadB u.life)

/-- `started = unit.get('agent-state') == 'started'`. -/
def startedB (u : UnitStatus) : Bool := u.agentState == some "started"

/-- `alive and started`. -/
def aliveStartedB (u : UnitStatus) : Bool := aliveB u && startedB u

/-- The loop state built while classifying the units of one snapshot:
the `ready` flag and the four unit-name sets of `wait`. -/
structure ClassState where
  ready : Bool
  all_units : Finset String
  live_units : Finset String
  ready_units : Finset String
  idle_units : Finset String
deriving DecidableEq

/-- Initial classification state of each cycle: `ready = True` and all
four sets empty. -/
def initState : ClassState :=
  { ready := true, all_units := ∅, live_units := ∅,
    ready_units := ∅, idle_units := ∅ }

/-- Classification of a single unit, translating the body of the inner
`for uname, unit in service.get('units', {}).items()` loop.  The source
adds `uname` to `all_units`, computes `alive`, `started`, `state`, and
then evaluates `since = parse_ts(...)` before branching, so a unit whose
`agent-status.since` is absent aborts with `TypeError` whatever its other
fields say. -/
def classifyUnit (now : Int) (st : ClassState) (uname : String)
    (unit : UnitStatus) : Except ClassAbort ClassState :=
  match parse_ts unit.agentStatusSince with
  | Except.error e => Except.error e
  | Except.ok since =>
    if aliveStartedB unit then
      match unit.agentStatusCurrent with
      | some s =>
        if s = "idle" then
          if since + IDLE_CONFIRMATION < now then
            Except.ok { st with
              all_units := insert uname st.all_units,
              live_units := insert uname st.live_units,
              idle_units := insert uname st.idle_units }
          else
            Except.ok { st with
              all_units := insert uname st.all_units,
              live_units := insert uname st.live_units }
        else
          Except.ok { st with
            all_units := insert uname st.all_units,
            live_units := insert uname st.live_units }
      | none =>
        Except.ok { st with
          all_units := insert uname st.all_units,
          live_units := insert uname st.live_units,
          ready_units := insert uname st.ready_units }
    else
      if unit.agentState = some "error" then
        Except.error (ClassAbort.unitError uname unit.agentStateInfo)
      else
        Except.ok { st with
          ready := false,
          all_units := insert uname st.all_units }

/-- Classification of a list of units in order, aborting at the first
unit that raises or exits. -/
def classifyUnits (now : Int) :
    ClassState → List (String × UnitStatus) → Except ClassAbort ClassState
  | st, [] => Except.ok st
  | st, p :: rest =>
    match classifyUnit now st p.1 p.2 with
    | Except.error e => Except.error e
    | Except.ok st1 => classifyUnits now st1 rest

/-- The service-level gate: `if service.get('life') in ('dying', 'dead'):
ready = False`. -/
def serviceGate (st : ClassState) (sv : ServiceStatus) : ClassState :=
  if lifeDyingDeadB sv.life then { st with ready := false } else st

/-- Classification of the whole snapshot: the outer
`for sname, service in status.get('services', {}).items()` loop. -/
def classify (now : Int) :
    ClassState → Snapshot → Except ClassAbort ClassState
  | st, [] => Except.ok st
  | st, sv :: rest =>
    match classifyUnits now (serviceGate st sv.2) sv.2.units with
    | Except.error e => Except.error e
    | Except.ok st1 => classify now st1 rest

/-- The decision an evaluation cycle ends in. -/
inductive Outcome where
  /-- `wait` returns: steady state reached. -/
  | ready : Outcome
  /-- falls through to `time.sleep(2)` and polls again. -/
  | notReady : Outcome
  /-- `sys.exit(1)` for a unit in `error` agent state. -/
  | unitError (uname : String) (info : Option String) : Outcome
  /-- uncaught `TypeError` from `parse_ts(None)`. -/
  | typeError : Outcome
deriving DecidableEq

/-- Everything one evaluation cycle produces: the decision, the value of
`prev_logs` after the cycle, the set of units whose log tail was fetched
this cycle, and the final `idle_units` set (empty when the cycle
aborted). -/
structure EvalResult where
  outcome : Outcome
  probes : ProbeMap
  probed : Finset String
  idle_units : Finset String

/-- The `logs` dict built by the probe loop: every ready-for-probe unit's
name mapped to the tail of its log, nothing else
(`logs[uname] = get_log_tail(uname)` for `uname in ready_units`). -/
def probeLogs (probe : String → String) (st : ClassState) : ProbeMap :=
  fun u => if u ∈ st.ready_units then some (probe u) else none

/-- The idle set after the probe loop: the fine-grained idle units plus
every probed unit whose log tail equals the stored previous value
(`if logs[uname] == prev_logs.get(uname): idle_units.add(uname)`). -/
def probeIdle (probe : String → String) (prev_logs : ProbeMap)
    (st : ClassState) : Finset String :=
  st.idle_units ∪
    st.ready_units.filter (fun u => some (probe u) = prev_logs u)

/-- The probing and decision tail of the cycle, given a completed
classification state: the `if ready and ready_units:` block followed by
`if ready and all_units == idle_units: return`.  Probe results of this
cycle are stored keyed by unit name and replace `prev_logs` in full
(`prev_logs = logs`); when probing does not run, `prev_logs` is left
untouched. -/
def evalStep (probe : String → String) (prev_logs : ProbeMap)
    (st : ClassState) : EvalResult :=
  if st.ready = true ∧ st.ready_units ≠ ∅ then
    if st.ready = true ∧ st.all_units = probeIdle probe prev_logs st then
      { outcome := Outcome.ready, probes := probeLogs probe st,
        probed := st.ready_units, idle_units := probeIdle probe prev_logs st }
    else
      { outcome := Outcome.notReady, probes := probeLogs probe st,
        probed := st.ready_units, idle_units := probeIdle probe prev_logs st }
  else
    if st.ready = true ∧ st.all_units = st.idle_units then
      { outcome := Outcome.ready, probes := prev_logs,
        probed := ∅, idle_units := st.idle_units }
    else
      { outcome := Outcome.notReady, probes := prev_logs,
        probed := ∅, idle_units := st.idle_units }

/-- One full iteration of the polling loop of `wait`: the detector
contract `evaluate(snapshot, prev_probes) -> (DetectionResult,
updated_probes)`, with the wall clock and the probe oracle explicit. -/
def evaluate (now : Int) (probe : String → String) (snap : Snapshot)
    (prev_logs : ProbeMap) : EvalResult :=
  match classify now initState snap with
  | Except.error ClassAbort.typeError =>
    { outcome := Outcome.typeError, probes := prev_logs,
      probed := ∅, idle_units := ∅ }
  | Except.error (ClassAbort.unitError u i) =>
    { outcome := Outcome.unitError u i, probes := prev_logs,
      probed := ∅, idle_units := ∅ }
  | Except.ok st => evalStep probe prev_logs st

/-- All `(unit name, unit)` pairs of a snapshot, in iteration order. -/
def unitPairs (snap : Snapshot) : List (String × UnitStatus) :=
  (snap.map (fun sv => sv.2.units)).flatten

/-- The set of all unit names of a snapshot. -/
def unitNames (snap : Snapshot) : Finset String :=
  ((unitPairs snap).map Prod.fst).toFinset

/-- No service of the snapshot has lifecycle dying or dead. -/
def NoDyingDeadService (snap : Snapshot) : Prop :=
  ∀ sv ∈ snap, lifeDyingDeadB sv.2.life = false

/-- Every unit of the snapshot is alive with agent state `started`. -/
def AllAliveStarted (snap : Snapshot) : Prop :=
  ∀ p ∈ unitPairs snap, aliveStartedB p.2 = true

/-- Python string formatting of an optional string (`format` renders
`None` as the text `None`). -/
def pyStr : Option String → String
  | none => "None"
  | some s => s

/-- Python `c or d` on integers: `0` is falsy, every other integer is
truthy. -/
def pyOrInt (c d : Int) : Int := if c = 0 then d else c

/-- What running the external command in `run_or_die` can come to:
`Popen`/`communicate` completing with a return code and captured output,
or an exception whose optional `returncode` attribute the handler reads. -/
inductive CmdResult where
  | completed (returncode : Int) (out : String) (err : String) : CmdResult
  | raised (returncode : Option Int) : CmdResult
deriving DecidableEq

/-- How `run_or_die` ends: returning the captured stdout, or terminating
the process via `sys.exit` with a code. -/
inductive RunOutcome where
  | ok (out : String) : RunOutcome
  | exited (code : Int) : RunOutcome
deriving DecidableEq

/-- `run_or_die` of the source: return stdout on return code 0, else
`sys.exit(p.returncode or 43)`; on an exception,
`sys.exit(x.returncode or 42)`. -/
def run_or_die : CmdResult → RunOutcome
  | CmdResult.completed rc out _ =>
    if rc = 0 then RunOutcome.ok out else RunOutcome.exited (pyOrInt rc 43)
  | CmdResult.raised none => RunOutcome.exited 42
  | CmdResult.raised (some rc) => RunOutcome.exited (pyOrInt rc 42)

/-- Process-level consequence of a cycle outcome for the CLI shell:
`none` means the loop sleeps and polls again; `some (code, diag)` means
the process terminates with exit status `code` having emitted error
output `diag`.  READY makes `wait` (hence the console script) return,
which is exit status 0 with no error output; a unit in error state is
`sys.exit(1)` after logging `"{} failed: {}"`; an uncaught `TypeError`
makes the interpreter print a traceback and exit with status 1. -/
def processExit : Outcome → Option (Int × Option String)
  | Outcome.ready => some (0, none)
  | Outcome.notReady => none
  | Outcome.unitError u i => some (1, some (u ++ " failed: " ++ pyStr i))
  | Outcome.typeError =>
    some (1, some "TypeError: strptime() argument 1 must be str, not None")

/-- `p.2` has agent state `error` (the unit triggers `sys.exit(1)` when
its classification is reached). -/
def errB (p : String × UnitStatus) : Bool := p.2.agentState == some "error"

/- ------------------------------------------------------------------
Concrete fixtures for counterexamples and witnesses.
------------------------------------------------------------------ -/

/-- A fixed probe oracle returning the same opaque log line for every
unit. -/
def exProbe : String → String := fun _ => "2024 log line"

/-- An alive and started unit with fine-grained state `idle` since
time `t`. -/
def idleUnitAt (t : Int) : UnitStatus :=
  { life := none, agentState := some "started", agentStateInfo := none,
    agentStatusCurrent := some "idle", agentStatusSince := some t }

/-- An alive and started coarse-grained unit: no `agent-status` object at
all, as a Juju 1.23 agent reports. -/
def coarseNoStatusUnit : UnitStatus :=
  { life := none, agentState := some "started", agentStateInfo := none,
    agentStatusCurrent := none, agentStatusSince := none }

/-- An alive and started unit with a `since` timestamp but no `current`
state: the only shape that reaches the `ready_units` branch. -/
def coarseSinceUnit : UnitStatus :=
  { life := none, agentState := some "started", agentStateInfo := none,
    agentStatusCurrent := none, agentStatusSince := some 0 }

/-- A unit in `error` agent state with a diagnostic, carrying a `since`
timestamp. -/
def errorUnitWithSince : UnitStatus :=
  { life := none, agentState := some "error",
    agentStateInfo := some "hook failed: install",
    agentStatusCurrent := none, agentStatusSince := some 0 }

/-- A unit in `error` agent state with a diagnostic but no `agent-status`
object. -/
def errorUnitNoSince : UnitStatus :=
  { life := none, agentState := some "error",
    agentStateInfo := some "hook failed: install",
    agentStatusCurrent := none, agentStatusSince := none }

/-- A dying unit (lifecycle `dying`, agent not in error). -/
def dyingUnit : UnitStatus :=
  { life := some "dying", agentState := none, agentStateInfo := none,
    agentStatusCurrent := none, agentStatusSince := some 0 }

/-- Snapshot in which the unit name `x` occurs under two services: once
long idle, once dying.  No service is dying or dead. -/
def snapDupName : Snapshot :=
  [("a", { life := none, units := [("x", idleUnitAt 0)] }),
   ("b", { life := none, units := [("x", dyingUnit)] })]

/-- Snapshot with one alive and started coarse unit that reports no
`agent-status` object at all. -/
def snapCoarse : Snapshot :=
  [("app", { life := none, units := [("app/0", coarseNoStatusUnit)] })]

/-- Snapshot with a single dying service and no units. -/
def snapDyingService : Snapshot :=
  [("s", { life := some "dying", units := [] })]

/-- Snapshot with one ready-for-probe unit `u/0`. -/
def snapProbeOne : Snapshot :=
  [("s", { life := none, units := [("u/0", coarseSinceUnit)] })]

/-- Snapshot with one unit `web/0` in `error` state carrying a `since`
timestamp. -/
def snapErrWithSince : Snapshot :=
  [("s", { life := none, units := [("web/0", errorUnitWithSince)] })]

/-- Snapshot with one unit `web/0` in `error` state and no `agent-status`
object. -/
def snapErrNoSince : Snapshot :=
  [("s", { life := none, units := [("web/0", errorUnitNoSince)] })]

/-- Snapshot with one long-idle fine-grained unit `db/0`. -/
def snapFineIdle : Snapshot :=
  [("db", { life := none, units := [("db/0", idleUnitAt 70)] })]

/-- A nonempty stored probe map holding one entry for `app/0`. -/
def probesAppLine : ProbeMap :=
  fun u => if u = "app/0" then some "line" else none

/-- A stored probe map holding, for `u/0`, exactly the line `exProbe`
returns. -/
def probesU0 : ProbeMap :=
  fun u => if u = "u/0" then some "2024 log line" else none

/- ------------------------------------------------------------------
Support lemmas about a single unit's classification.
------------------------------------------------------------------ -/

theorem classifyUnit_ok_ready (now : Int) (st : ClassState) (uname : String)
    (unit : UnitStatus) (st' : ClassState)
    (h : classifyUnit now st uname unit = Except.ok st') :
    st'.ready = (st.ready && aliveStartedB unit) := by
  unfold classifyUnit at h
  repeat' split at h
  all_goals try exact (Except.noConfusion h)
  all_goals injection h with h
  all_goals subst h
  all_goals simp_all

theorem classifyUnit_ok_all (now : Int) (st : ClassState) (uname : String)
    (unit : UnitStatus) (st' : ClassState)
    (h : classifyUnit now st uname unit = Except.ok st') :
    st'.all_units = insert uname st.all_units := by
  unfold classifyUnit at h
  repeat' split at h
  all_goals try exact (Except.noConfusion h)
  all_goals injection h with h
  all_goals subst h
  all_goals rfl

theorem classifyUnit_ok_noerror (now : Int) (st : ClassState) (uname : String)
    (unit : UnitStatus) (st' : ClassState)
    (h : classifyUnit now st uname unit = Except.ok st') :
    unit.agentState ≠ some "error" := by
  intro he
  have hstarted : aliveStartedB unit = false := by
    simp [aliveStartedB, startedB, he]
  unfold classifyUnit at h
  repeat' split at h
  all_goals try injection h with h
  all_goals simp_all

theorem classifyUnit_error_of_error (now : Int) (st : ClassState)
    (uname : String) (unit : UnitStatus) (t : Int)
    (hs : unit.agentStatusSince = some t)
    (he : unit.agentState = some "error") :
    classifyUnit now st uname unit =
      Except.error (ClassAbort.unitError uname unit.agentStateInfo) := by
  have hstarted : aliveStartedB unit = false := by
    simp [aliveStartedB, startedB, he]
  unfold classifyUnit
  simp [parse_ts, hs, hstarted, he]

theorem classifyUnit_ok_of_noerror (now : Int) (st : ClassState)
    (uname : String) (unit : UnitStatus) (t : Int)
    (hs : unit.agentStatusSince = some t)
    (he : unit.agentState ≠ some "error") :
    ∃ st', classifyUnit now st uname unit = Except.ok st' := by
  unfold classifyUnit
  simp only [parse_ts, hs]
  split
  · split
    · split
      · split
        · exact ⟨_, rfl⟩
        · exact ⟨_, rfl⟩
      · exact ⟨_, rfl⟩
    · exact ⟨_, rfl⟩
  · exact ⟨{ st with ready := false, all_units := insert uname st.all_units },
      by simp [he]⟩

/- ------------------------------------------------------------------
Support lemmas about classifying a list of units.
------------------------------------------------------------------ -/

theorem classifyUnits_ok_ready_iff (now : Int)
    (l : List (String × UnitStatus)) :
    ∀ st st', classifyUnits now st l = Except.ok st' →
      (st'.ready = true ↔
        st.ready = true ∧ ∀ p ∈ l, aliveStartedB p.2 = true) := by
  induction l with
  | nil =>
    intro st st' h
    injection h with h
    subst h
    simp
  | cons p rest ih =>
    intro st st' h
    unfold classifyUnits at h
    cases hu : classifyUnit now st p.1 p.2 with
    | error e => rw [hu] at h; cases h
    | ok st1 =>
      rw [hu] at h
      have h1 := classifyUnit_ok_ready now st p.1 p.2 st1 hu
      have h2 := ih st1 st' h
      rw [h2, h1]
      simp only [List.forall_mem_cons, Bool.and_eq_true]
      tauto

theorem classifyUnits_ok_all (now : Int) (l : List (String × UnitStatus)) :
    ∀ st st', classifyUnits now st l = Except.ok st' →
      st'.all_units = st.all_units ∪ (l.map Prod.fst).toFinset := by
  induction l with
  | nil =>
    intro st st' h
    injection h with h
    subst h
    simp
  | cons p rest ih =>
    intro st st' h
    unfold classifyUnits at h
    cases hu : classifyUnit now st p.1 p.2 with
    | error e => rw [hu] at h; cases h
    | ok st1 =>
      rw [hu] at h
      have h1 := classifyUnit_ok_all now st p.1 p.2 st1 hu
      have h2 := ih st1 st' h
      rw [h2, h1]
      simp [Finset.insert_union, Finset.union_insert]

theorem classifyUnits_ok_noerror (now : Int) (l : List (String × UnitStatus)) :
    ∀ st st', classifyUnits now st l = Except.ok st' →
      ∀ p ∈ l, p.2.agentState ≠ some "error" := by
  induction l with
  | nil => intro st st' _ p hp; cases hp
  | cons q rest ih =>
    intro st st' h p hp
    unfold classifyUnits at h
    cases hu : classifyUnit now st q.1 q.2 with
    | error e => rw [hu] at h; cases h
    | ok st1 =>
      rw [hu] at h
      rcases List.mem_cons.mp hp with hq | hq
      · subst hq
        exact classifyUnit_ok_noerror now st p.1 p.2 st1 hu
      · exact ih st1 st' h p hq

theorem classifyUnits_firstError (now : Int) (l : List (String × UnitStatus))
    (pe : String × UnitStatus) :
    ∀ st, (∀ p ∈ l, p.2.agentStatusSince ≠ none) →
      l.find? errB = some pe →
      classifyUnits now st l =
        Except.error (ClassAbort.unitError pe.1 pe.2.agentStateInfo) := by
  induction l with
  | nil => intro st _ hf; cases hf
  | cons q rest ih =>
    intro st hsince hf
    have hqs : q.2.agentStatusSince ≠ none := hsince q (List.mem_cons_self q rest)
    obtain ⟨t, ht⟩ : ∃ t, q.2.agentStatusSince = some t := by
      cases hq : q.2.agentStatusSince with
      | none => exact absurd hq hqs
      | some t => exact ⟨t, rfl⟩
    by_cases he : errB q = true
    · rw [List.find?_cons_of_pos _ he] at hf
      injection hf with hf
      subst hf
      have heq : q.2.agentState = some "error" := by
        simpa [errB] using he
      unfold classifyUnits
      rw [classifyUnit_error_of_error now st q.1 q.2 t ht heq]
    · rw [List.find?_cons_of_neg _ he] at hf
      have heq : q.2.agentState ≠ some "error" := by
        simpa [errB] using he
      obtain ⟨st1, hst1⟩ := classifyUnit_ok_of_noerror now st q.1 q.2 t ht heq
      unfold classifyUnits
      rw [hst1]
      exact ih st1 (fun p hp => hsince p (List.mem_cons_of_mem q hp)) hf

theorem classifyUnits_ok_of_noError (now : Int)
    (l : List (String × UnitStatus)) :
    ∀ st, (∀ p ∈ l, p.2.agentStatusSince ≠ none) →
      l.find? errB = none →
      ∃ st', classifyUnits now st l = Except.ok st' := by
  induction l with
  | nil => intro st _ _; exact ⟨st, rfl⟩
  | cons q rest ih =>
    intro st hsince hf
    have hqs : q.2.agentStatusSince ≠ none := hsince q (List.mem_cons_self q rest)
    obtain ⟨t, ht⟩ : ∃ t, q.2.agentStatusSince = some t := by
      cases hq : q.2.agentStatusSince with
      | none => exact absurd hq hqs
      | some t => exact ⟨t, rfl⟩
    have he : errB q ≠ true := by
      intro he
      rw [List.find?_cons_of_pos _ he] at hf
      cases hf
    rw [List.find?_cons_of_neg _ he] at hf
    have heq : q.2.agentState ≠ some "error" := by
      simpa [errB] using he
    obtain ⟨st1, hst1⟩ := classifyUnit_ok_of_noerror now st q.1 q.2 t ht heq
    obtain ⟨st', hst'⟩ :=
      ih st1 (fun p hp => hsince p (List.mem_cons_of_mem q hp)) hf
    refine ⟨st', ?_⟩
    unfold classifyUnits
    rw [hst1]
    exact hst'

/- ------------------------------------------------------------------
Support lemmas about classifying a whole snapshot.
------------------------------------------------------------------ -/

theorem serviceGate_ready_iff (st : ClassState) (sv : ServiceStatus) :
    (serviceGate st sv).ready = true ↔
      st.ready = true ∧ lifeDyingDeadB sv.life = false := by
  unfold serviceGate
  split <;> simp_all

theorem serviceGate_all (st : ClassState) (sv : ServiceStatus) :
    (serviceGate st sv).all_units = st.all_units := by
  unfold serviceGate
  split <;> rfl

theorem unitPairs_cons (sv : String × ServiceStatus) (rest : Snapshot) :
    unitPairs (sv :: rest) = sv.2.units ++ unitPairs rest := by
  simp [unitPairs]

theorem classify_ok_ready_iff (now : Int) (snap : Snapshot) :
    ∀ st st', classify now st snap = Except.ok st' →
      (st'.ready = true ↔
        st.ready = true ∧ (∀ sv ∈ snap, lifeDyingDeadB sv.2.life = false) ∧
          ∀ p ∈ unitPairs snap, aliveStartedB p.2 = true) := by
  induction snap with
  | nil =>
    intro st st' h
    injection h with h
    subst h
    simp [unitPairs]
  | cons sv rest ih =>
    intro st st' h
    unfold classify at h
    cases hu : classifyUnits now (serviceGate st sv.2) sv.2.units with
    | error e => rw [hu] at h; cases h
    | ok st1 =>
      rw [hu] at h
      have h1 := classifyUnits_ok_ready_iff now sv.2.units (serviceGate st sv.2) st1 hu
      have h2 := ih st1 st' h
      rw [h2, h1, serviceGate_ready_iff, unitPairs_cons]
      simp only [List.forall_mem_cons, List.mem_append, or_imp, forall_and]
      tauto

theorem classify_ok_all (now : Int) (snap : Snapshot) :
    ∀ st st', classify now st snap = Except.ok st' →
      st'.all_units =
        st.all_units ∪ ((unitPairs snap).map Prod.fst).toFinset := by
  induction snap with
  | nil =>
    intro st st' h
    injection h with h
    subst h
    simp [unitPairs]
  | cons sv rest ih =>
    intro st st' h
    unfold classify at h
    cases hu : classifyUnits now (serviceGate st sv.2) sv.2.units with
    | error e => rw [hu] at h; cases h
    | ok st1 =>
      rw [hu] at h
      have h1 := classifyUnits_ok_all now sv.2.units (serviceGate st sv.2) st1 hu
      have h2 := ih st1 st' h
      rw [h2, h1, serviceGate_all, unitPairs_cons]
      simp [Finset.union_assoc]

theorem classify_ok_noerror (now : Int) (snap : Snapshot) :
    ∀ st st', classify now st snap = Except.ok st' →
      ∀ p ∈ unitPairs snap, p.2.agentState ≠ some "error" := by
  induction snap with
  | nil => intro st st' _ p hp; simp [unitPairs] at hp
  | cons sv rest ih =>
    intro st st' h p hp
    unfold classify at h
    cases hu : classifyUnits now (serviceGate st sv.2) sv.2.units with
    | error e => rw [hu] at h; cases h
    | ok st1 =>
      rw [hu] at h
      rw [unitPairs_cons] at hp
      rcases List.mem_append.mp hp with hq | hq
      · exact classifyUnits_ok_noerror now sv.2.units (serviceGate st sv.2) st1 hu p hq
      · exact ih st1 st' h p hq

theorem classify_firstError (now : Int) (snap : Snapshot)
    (pe : String × UnitStatus) :
    ∀ st, (∀ p ∈ unitPairs snap, p.2.agentStatusSince ≠ none) →
      (unitPairs snap).find? errB = some pe →
      classify now st snap =
        Except.error (ClassAbort.unitError pe.1 pe.2.agentStateInfo) := by
  induction snap with
  | nil => intro st _ hf; simp [unitPairs] at hf
  | cons sv rest ih =>
    intro st hsince hf
    rw [unitPairs_cons] at hsince hf
    rw [List.find?_append] at hf
    have hsu : ∀ p ∈ sv.2.units, p.2.agentStatusSince ≠ none :=
      fun p hp => hsince p (List.mem_append_left _ hp)
    have hsr : ∀ p ∈ unitPairs rest, p.2.agentStatusSince ≠ none :=
      fun p hp => hsince p (List.mem_append_right _ hp)
    unfold classify
    cases hfu : sv.2.units.find? errB with
    | some pe1 =>
      rw [hfu] at hf
      simp only [Option.or] at hf
      injection hf with hf
      subst hf
      rw [classifyUnits_firstError now sv.2.units pe1 (serviceGate st sv.2) hsu hfu]
    | none =>
      rw [hfu] at hf
      simp only [Option.or] at hf
      obtain ⟨st1, h1⟩ :=
        classifyUnits_ok_of_noError now sv.2.units (serviceGate st sv.2) hsu hfu
      rw [h1]
      exact ih st1 hsr hf

theorem classify_ok_of_noUnits (now : Int) (snap : Snapshot) :
    ∀ st, unitPairs snap = [] →
      ∃ st', classify now st snap = Except.ok st' := by
  induction snap with
  | nil => intro st _; exact ⟨st, rfl⟩
  | cons sv rest ih =>
    intro st hup
    rw [unitPairs_cons] at hup
    obtain ⟨hu, hr⟩ := List.append_eq_nil.mp hup
    obtain ⟨st', h'⟩ := ih (serviceGate st sv.2) hr
    refine ⟨st', ?_⟩
    unfold classify
    rw [hu]
    exact h'

/-- Unfolding `evaluate` when classification completes. -/
theorem evaluate_ok (now : Int) (probe : String → String) (snap : Snapshot)
    (prev : ProbeMap) (st : ClassState)
    (h : classify now initState snap = Except.ok st) :
    evaluate now probe snap prev = evalStep probe prev st := by
  unfold evaluate
  rw [h]

/- ------------------------------------------------------------------
Support lemmas about the probing and decision tail.
------------------------------------------------------------------ -/

theorem evalStep_ready_iff (probe : String → String) (prev : ProbeMap)
    (st : ClassState) :
    (evalStep probe prev st).outcome = Outcome.ready ↔
      (st.ready = true ∧
        st.all_units = (evalStep probe prev st).idle_units) := by
  unfold evalStep
  split_ifs with h1 h2 h3 <;> simp_all

theorem evalStep_outcome_cases (probe : String → String) (prev : ProbeMap)
    (st : ClassState) :
    (evalStep probe prev st).outcome = Outcome.ready ∨
      (evalStep probe prev st).outcome = Outcome.notReady := by
  unfold evalStep
  split_ifs <;> simp

theorem evalStep_notReady_of_not_ready (probe : String → String)
    (prev : ProbeMap) (st : ClassState) (h : st.ready ≠ true) :
    (evalStep probe prev st).outcome = Outcome.notReady := by
  unfold evalStep
  split_ifs with h1 h2 <;> simp_all

theorem evalStep_no_probing (probe : String → String) (prev : ProbeMap)
    (st : ClassState) (h : ¬(st.ready = true ∧ st.ready_units ≠ ∅)) :
    (evalStep probe prev st).probes = prev ∧
      (evalStep probe prev st).probed = ∅ ∧
      (evalStep probe prev st).idle_units = st.idle_units := by
  unfold evalStep
  rw [if_neg h]
  split_ifs <;> exact ⟨rfl, rfl, rfl⟩

theorem evalStep_probing (probe : String → String) (prev : ProbeMap)
    (st : ClassState) (h : st.ready = true ∧ st.ready_units ≠ ∅) :
    (evalStep probe prev st).probes = probeLogs probe st ∧
      (evalStep probe prev st).probed = st.ready_units ∧
      (evalStep probe prev st).idle_units = probeIdle probe prev st := by
  unfold evalStep
  rw [if_pos h]
  split_ifs <;> exact ⟨rfl, rfl, rfl⟩

/- ------------------------------------------------------------------
Claim C3.
------------------------------------------------------------------ -/

/-- C3: the claim says an alive-and-started unit with no fine-grained
state is classified ready-for-probe, the classification being total on
such units.  The code instead evaluates `parse_ts` on the absent `since`
field before the branch, so `strptime` raises `TypeError` and the process
dies: on the snapshot whose only unit is alive, started and carries no
`agent-status` object, evaluation ends in the `TypeError` abort instead
of probing. -/
theorem C3_coarse_unit_crashes :
    parse_ts none = Except.error ClassAbort.typeError ∧
    aliveStartedB coarseNoStatusUnit = true ∧
    coarseNoStatusUnit.agentStatusCurrent = none ∧
    coarseNoStatusUnit.agentStatusSince = none ∧
    (evaluate 0 exProbe snapCoarse emptyProbes).outcome = Outcome.typeError ∧
    (evaluate 0 exProbe snapCoarse emptyProbes).probed = ∅ := by
  refine ⟨rfl, by decide, rfl, rfl, ?_, ?_⟩ <;> decide

/- ------------------------------------------------------------------
Claim C4.
------------------------------------------------------------------ -/

/-- C4 counterexample: the claim says a fine-grained unit is idle iff
`now - fine_state_since >= IDLE_CONFIRMATION`.  At `now = 100` a unit
idle since `95` satisfies `now - since ≥ IDLE_CONFIRMATION` (exactly 5
seconds), yet the code (`since + IDLE_CONFIRMATION < now`, strict) does
not classify it idle. -/
theorem C4_counterexample :
    (∃ st', classifyUnit 100 initState "u/0" (idleUnitAt 95) =
        Except.ok st' ∧ "u/0" ∉ st'.idle_units) ∧
    IDLE_CONFIRMATION ≤ 100 - 95 ∧
    (idleUnitAt 95).agentStatusCurrent = some "idle" ∧
    aliveStartedB (idleUnitAt 95) = true := by
  refine ⟨⟨_, rfl, by decide⟩, by decide, rfl, by decide⟩

/-- C4 (amended): an alive-and-started unit with fine-grained state `c`
and timestamp `t` is classified without failing, and lands in the idle
set exactly when `c = idle` and `t + IDLE_CONFIRMATION < now` holds,
i.e. `now - t` STRICTLY exceeds the 5-second window (or it already was in
the idle set); at exactly 5 seconds it is not idle.  The `now - 1s` /
`now - 10s` particulars of the claim hold (see the witness). -/
theorem C4_amended_debounce (now t : Int) (st : ClassState) (uname : String)
    (unit : UnitStatus) (c : String)
    (ha : aliveStartedB unit = true)
    (hc : unit.agentStatusCurrent = some c)
    (hs : unit.agentStatusSince = some t) :
    ∃ st', classifyUnit now st uname unit = Except.ok st' ∧
      (uname ∈ st'.idle_units ↔
        ((c = "idle" ∧ t + IDLE_CONFIRMATION < now) ∨
          uname ∈ st.idle_units)) := by
  by_cases hidle : c = "idle"
  · by_cases ht : t + IDLE_CONFIRMATION < now
    · refine ⟨{ st with
                 all_units := insert uname st.all_units,
                 live_units := insert uname st.live_units,
                 idle_units := insert uname st.idle_units }, ?_, ?_⟩
      · simp [classifyUnit, parse_ts, hs, ha, hc, hidle, ht]
      · simp [hidle, ht]
    · refine ⟨{ st with
                 all_units := insert uname st.all_units,
                 live_units := insert uname st.live_units }, ?_, ?_⟩
      · simp [classifyUnit, parse_ts, hs, ha, hc, hidle, ht]
      · simp [hidle, ht]
  · refine ⟨{ st with
               all_units := insert uname st.all_units,
               live_units := insert uname st.live_units }, ?_, ?_⟩
    · simp [classifyUnit, parse_ts, hs, ha, hc, hidle]
    · simp [hidle]

/-- C4 witness: at `now = 100`, the unit idle since `90` (ten seconds) is
classified idle, and the unit idle since `99` (one second) is not. -/
theorem C4_amended_debounce_witness :
    (∃ st', classifyUnit 100 initState "u/0" (idleUnitAt 90) =
        Except.ok st' ∧ "u/0" ∈ st'.idle_units) ∧
    (∃ st', classifyUnit 100 initState "u/0" (idleUnitAt 99) =
        Except.ok st' ∧ "u/0" ∉ st'.idle_units) := by
  constructor
  · obtain ⟨st', h1, h2⟩ := C4_amended_debounce 100 90 initState "u/0"
      (idleUnitAt 90) "idle" (by decide) rfl rfl
    exact ⟨st', h1, h2.mpr (Or.inl ⟨rfl, by decide⟩)⟩
  · obtain ⟨st', h1, h2⟩ := C4_amended_debounce 100 99 initState "u/0"
      (idleUnitAt 99) "idle" (by decide) rfl rfl
    refine ⟨st', h1, fun hm => ?_⟩
    rcases h2.mp hm with ⟨_, ht⟩ | hm0
    · exact absurd ht (by decide)
    · simp [initState] at hm0

/- ------------------------------------------------------------------
Claim C5.
------------------------------------------------------------------ -/

/-- C5 counterexample: the claim says the stored probe map is cleared
when the service-level gate fails.  On a snapshot with a dying service
and a nonempty stored map, the cycle returns NOT-READY and the map still
holds its old entry: `prev_logs = logs` only executes inside
`if ready and ready_units:`, so nothing clears it. -/
theorem C5_counterexample :
    (∃ sv ∈ snapDyingService, lifeDyingDeadB sv.2.life = true) ∧
    (evaluate 0 exProbe snapDyingService probesAppLine).outcome =
      Outcome.notReady ∧
    (evaluate 0 exProbe snapDyingService probesAppLine).probes "app/0" =
      some "line" := by
  refine ⟨⟨("s", { life := some "dying", units := [] }), by decide, by decide⟩,
    ?_, ?_⟩ <;> decide

/-- C5 (amended): when some service is dying or dead the returned probe
map equals `prev_probes` unchanged — it is carried over, not cleared. -/
theorem C5_amended_probes_kept (now : Int) (probe : String → String)
    (snap : Snapshot) (prev : ProbeMap)
    (h : ∃ sv ∈ snap, lifeDyingDeadB sv.2.life = true) :
    (evaluate now probe snap prev).probes = prev := by
  cases hc : classify now initState snap with
  | error e =>
    cases e <;> (unfold evaluate; rw [hc])
  | ok st =>
    rw [evaluate_ok now probe snap prev st hc]
    obtain ⟨sv, hsv, hdd⟩ := h
    have hri := classify_ok_ready_iff now snap initState st hc
    have hnr : st.ready ≠ true := by
      intro hr
      have hfalse := (hri.mp hr).2.1 sv hsv
      rw [hdd] at hfalse
      cases hfalse
    exact (evalStep_no_probing probe prev st (fun hp => hnr hp.1)).1

/-- C5 witness: the amended statement evaluated on the dying-service
snapshot with a nonempty stored probe map. -/
theorem C5_amended_probes_kept_witness :
    (evaluate 0 exProbe snapDyingService probesAppLine).probes =
      probesAppLine :=
  C5_amended_probes_kept 0 exProbe snapDyingService probesAppLine
    ⟨("s", { life := some "dying", units := [] }), by decide, by decide⟩

/- ------------------------------------------------------------------
Claim C9.
------------------------------------------------------------------ -/

/-- C9: in a cycle where the gate passes but no unit is ready-for-probe,
the stored probe map is carried over completely unchanged (not replaced
by this cycle's empty `logs` dict, not cleared) and no probe is
issued. -/
theorem C9_probe_map_carryover (now : Int) (probe : String → String)
    (snap : Snapshot) (prev : ProbeMap) (st : ClassState)
    (hc : classify now initState snap = Except.ok st)
    (_hready : st.ready = true) (hrdy : st.ready_units = ∅) :
    (evaluate now probe snap prev).probes = prev ∧
      (evaluate now probe snap prev).probed = ∅ := by
  rw [evaluate_ok now probe snap prev st hc]
  have hnp : ¬(st.ready = true ∧ st.ready_units ≠ ∅) := fun hp => hp.2 hrdy
  exact ⟨(evalStep_no_probing probe prev st hnp).1,
    (evalStep_no_probing probe prev st hnp).2.1⟩

/-- C9 witness: a ready fleet of one long-idle fine-grained unit leaves a
stale stored probe entry for the vanished unit `app/0` untouched. -/
theorem C9_probe_map_carryover_witness :
    (evaluate 100 exProbe snapFineIdle probesAppLine).probes =
      probesAppLine ∧
    (evaluate 100 exProbe snapFineIdle probesAppLine).probed = ∅ :=
  C9_probe_map_carryover 100 exProbe snapFineIdle probesAppLine
    { ready := true, all_units := {"db/0"}, live_units := {"db/0"},
      ready_units := ∅, idle_units := {"db/0"} }
    (by rfl) (by rfl) (by rfl)

/- ------------------------------------------------------------------
Claim C2.
------------------------------------------------------------------ -/

/-- C2 counterexample: the claim says any snapshot containing a unit in
`error` agent state makes `evaluate` return FAILED with that unit's name
and info.  On a snapshot whose only unit `web/0` is in `error` state but
carries no `agent-status` object, evaluation instead dies in
`parse_ts(None)` with a `TypeError` before the error check is reached, so
no FAILED result carrying the name and info is produced. -/
theorem C2_counterexample :
    errorUnitNoSince.agentState = some "error" ∧
    (evaluate 0 exProbe snapErrNoSince emptyProbes).outcome =
      Outcome.typeError ∧
    (evaluate 0 exProbe snapErrNoSince emptyProbes).outcome ≠
      Outcome.unitError "web/0" (some "hook failed: install") := by
  refine ⟨rfl, by decide, by decide⟩

/-- C2 (amended): for every snapshot in which every unit carries an
`agent-status.since` timestamp and some unit has agent state `error`,
`evaluate` returns FAILED carrying the name and `agent-state-info` of the
FIRST such unit in iteration order (evaluation short-circuits there), no
activity probe is issued in that cycle, and the stored probe map is left
as it was. -/
theorem C2_amended_first_error (now : Int) (probe : String → String)
    (snap : Snapshot) (prev : ProbeMap) (pe : String × UnitStatus)
    (hsince : ∀ p ∈ unitPairs snap, p.2.agentStatusSince ≠ none)
    (hfind : (unitPairs snap).find? errB = some pe) :
    (evaluate now probe snap prev).outcome =
      Outcome.unitError pe.1 pe.2.agentStateInfo ∧
    (evaluate now probe snap prev).probed = ∅ ∧
    (evaluate now probe snap prev).probes = prev := by
  have hc := classify_firstError now snap pe initState hsince hfind
  unfold evaluate
  rw [hc]
  exact ⟨rfl, rfl, rfl⟩

/-- C2 witness: snapshot whose unit `web/0` is in `error` state with
diagnostic info and a present timestamp. -/
theorem C2_amended_first_error_witness :
    (evaluate 0 exProbe snapErrWithSince emptyProbes).outcome =
      Outcome.unitError "web/0" (some "hook failed: install") ∧
    (evaluate 0 exProbe snapErrWithSince emptyProbes).probed = ∅ ∧
    (evaluate 0 exProbe snapErrWithSince emptyProbes).probes =
      emptyProbes :=
  C2_amended_first_error 0 exProbe snapErrWithSince emptyProbes
    ("web/0", errorUnitWithSince) (by decide) (by rfl)

/- ------------------------------------------------------------------
Claim C6.
------------------------------------------------------------------ -/

/-- C6: in a cycle where probing occurs, a ready-for-probe unit (not
already idle from fine-grained state) is classified idle exactly when its
probe value equals the previous cycle's stored value for its name — an
absent previous value (no `v` exists) counts as changed, hence active —
and the returned probe map holds exactly this cycle's probe results:
`some (probe u)` for ready-for-probe units, `none` for every other
name. -/
theorem C6_probe_compare (now : Int) (probe : String → String)
    (snap : Snapshot) (prev : ProbeMap) (st : ClassState)
    (hc : classify now initState snap = Except.ok st)
    (hready : st.ready = true) (hne : st.ready_units ≠ ∅) :
    (∀ u ∈ st.ready_units, u ∉ st.idle_units →
      (u ∈ (evaluate now probe snap prev).idle_units ↔
        ∃ v, prev u = some v ∧ probe u = v)) ∧
    (∀ u, (evaluate now probe snap prev).probes u =
      if u ∈ st.ready_units then some (probe u) else none) ∧
    (evaluate now probe snap prev).probed = st.ready_units := by
  rw [evaluate_ok now probe snap prev st hc]
  obtain ⟨hp1, hp2, hp3⟩ := evalStep_probing probe prev st ⟨hready, hne⟩
  refine ⟨?_, ?_, hp2⟩
  · intro u hu hni
    rw [hp3]
    unfold probeIdle
    simp only [Finset.mem_union, Finset.mem_filter, hu, true_and]
    constructor
    · intro h
      rcases h with h | h
      · exact absurd h hni
      · exact ⟨probe u, h.symm, rfl⟩
    · rintro ⟨v, hv, hpv⟩
      exact Or.inr (by rw [hv, hpv])
  · intro u
    rw [hp1]
    rfl

/-- C6 witness: the single ready-for-probe unit `u/0` probed to the
stored line is classified idle, the returned map holds exactly its probe
result and nothing for other names. -/
theorem C6_probe_compare_witness :
    ("u/0" ∈ (evaluate 0 exProbe snapProbeOne probesU0).idle_units) ∧
    (evaluate 0 exProbe snapProbeOne probesU0).probes "u/0" =
      some "2024 log line" ∧
    (evaluate 0 exProbe snapProbeOne probesU0).probes "app/0" = none := by
  have h := C6_probe_compare 0 exProbe snapProbeOne probesU0
    ⟨true, {"u/0"}, {"u/0"}, {"u/0"}, ∅⟩ (by rfl) rfl (by decide)
  refine ⟨?_, ?_, ?_⟩
  · exact (h.1 "u/0" (by decide) (by decide)).mpr
      ⟨"2024 log line", by decide, rfl⟩
  · rw [h.2.1 "u/0"]
    decide
  · rw [h.2.1 "app/0"]
    decide

/- ------------------------------------------------------------------
Claim C7.
------------------------------------------------------------------ -/

/-- C7: on a fleet whose gate passes, whose non-probe units are all idle
and which has at least one ready-for-probe unit, with an unchanged probe
oracle, two consecutive evaluations starting from the empty probe map
converge: the first returns NOT-READY while seeding the probe map, the
second, fed the first call's returned probe map, returns READY. -/
theorem C7_two_cycle_convergence (now : Int) (probe : String → String)
    (snap : Snapshot) (st : ClassState)
    (hc : classify now initState snap = Except.ok st)
    (hready : st.ready = true) (hne : st.ready_units ≠ ∅)
    (hall : st.all_units = st.idle_units ∪ st.ready_units)
    (hdis : Disjoint st.idle_units st.ready_units) :
    (evaluate now probe snap emptyProbes).outcome = Outcome.notReady ∧
    (evaluate now probe snap
      (evaluate now probe snap emptyProbes).probes).outcome =
      Outcome.ready := by
  have he1 : evaluate now probe snap emptyProbes =
      evalStep probe emptyProbes st :=
    evaluate_ok now probe snap emptyProbes st hc
  have hf1 : st.ready_units.filter
      (fun u => some (probe u) = emptyProbes u) = ∅ := by
    apply Finset.filter_false_of_mem
    intro u _
    simp [emptyProbes]
  have hidle1 : probeIdle probe emptyProbes st = st.idle_units := by
    unfold probeIdle
    rw [hf1, Finset.union_empty]
  have hne2 : st.all_units ≠ st.idle_units := by
    rw [hall]
    intro h
    obtain ⟨u, hu⟩ := Finset.nonempty_iff_ne_empty.mpr hne
    have hui : u ∈ st.idle_units := h ▸ Finset.mem_union_right _ hu
    exact Finset.disjoint_left.mp hdis hui hu
  have ho1 : (evalStep probe emptyProbes st).outcome = Outcome.notReady := by
    unfold evalStep
    rw [if_pos ⟨hready, hne⟩, hidle1, if_neg (fun hcon => hne2 hcon.2)]
  have hp1 : (evalStep probe emptyProbes st).probes = probeLogs probe st :=
    (evalStep_probing probe emptyProbes st ⟨hready, hne⟩).1
  have he2 : evaluate now probe snap (probeLogs probe st) =
      evalStep probe (probeLogs probe st) st :=
    evaluate_ok now probe snap (probeLogs probe st) st hc
  have hf2 : st.ready_units.filter
      (fun u => some (probe u) = probeLogs probe st u) = st.ready_units := by
    apply Finset.filter_true_of_mem
    intro u hu
    unfold probeLogs
    rw [if_pos hu]
  have hidle2 : probeIdle probe (probeLogs probe st) st = st.all_units := by
    unfold probeIdle
    rw [hf2, ← hall]
  have ho2 : (evalStep probe (probeLogs probe st) st).outcome =
      Outcome.ready := by
    unfold evalStep
    rw [if_pos ⟨hready, hne⟩, hidle2, if_pos ⟨hready, rfl⟩]
  refine ⟨by rw [he1, ho1], ?_⟩
  rw [he1, hp1, he2, ho2]

/-- C7 witness: the one-coarse-unit snapshot probed twice with the same
oracle: NOT-READY on the first call, READY on the second. -/
theorem C7_two_cycle_convergence_witness :
    (evaluate 0 exProbe snapProbeOne emptyProbes).outcome =
      Outcome.notReady ∧
    (evaluate 0 exProbe snapProbeOne
      (evaluate 0 exProbe snapProbeOne emptyProbes).probes).outcome =
      Outcome.ready :=
  C7_two_cycle_convergence 0 exProbe snapProbeOne
    ⟨true, {"u/0"}, {"u/0"}, {"u/0"}, ∅⟩ (by rfl) rfl (by decide)
    (by decide) (Finset.disjoint_empty_left _)

/- ------------------------------------------------------------------
Claim C1.
------------------------------------------------------------------ -/

/-- C1 counterexample: the claim makes READY equivalent to no-dying-dead
-service AND all-units = idle-units.  On the snapshot where the unit name
`x` occurs once long-idle and once dying under two alive services, no
service is dying or dead and the set of all unit names equals the
computed idle set, yet the cycle returns NOT-READY (the `ready` flag is
also cleared by the non-started unit). -/
theorem C1_counterexample :
    (evaluate 100 exProbe snapDupName emptyProbes).outcome =
      Outcome.notReady ∧
    (∀ sv ∈ snapDupName, lifeDyingDeadB sv.2.life = false) ∧
    unitNames snapDupName =
      (evaluate 100 exProbe snapDupName emptyProbes).idle_units := by
  exact ⟨by decide, by decide, by decide⟩

/-- C1 (amended): `evaluate` returns READY if and only if no service is
dying or dead AND every unit is alive with agent state started AND the
set of all unit names equals the computed idle set; an empty fleet
returns READY, and any dying or dead service forces a non-READY outcome.
(The alive-and-started conjunct is the correction: it is implied by the
original claim's condition except when a not-alive-and-started unit
shares its name with an idle unit.) -/
theorem C1_amended_ready_iff (now : Int) (probe : String → String)
    (snap : Snapshot) (prev : ProbeMap) :
    ((evaluate now probe snap prev).outcome = Outcome.ready ↔
      (NoDyingDeadService snap ∧ AllAliveStarted snap ∧
        unitNames snap = (evaluate now probe snap prev).idle_units)) ∧
    (snap = [] → (evaluate now probe snap prev).outcome = Outcome.ready) ∧
    ((∃ sv ∈ snap, lifeDyingDeadB sv.2.life = true) →
      (evaluate now probe snap prev).outcome ≠ Outcome.ready) := by
  cases hc : classify now initState snap with
  | error e =>
    have hne : unitPairs snap ≠ [] := by
      intro hnil
      obtain ⟨st', h'⟩ := classify_ok_of_noUnits now snap initState hnil
      rw [h'] at hc
      cases hc
    have hev : (evaluate now probe snap prev).idle_units = ∅ ∧
        (evaluate now probe snap prev).outcome ≠ Outcome.ready := by
      unfold evaluate
      rw [hc]
      cases e <;> exact ⟨rfl, by simp⟩
    refine ⟨⟨fun hr => absurd hr hev.2, fun hcon => ?_⟩,
      fun hnil => ?_, fun _ => hev.2⟩
    · obtain ⟨_, _, hun⟩ := hcon
      rw [hev.1] at hun
      have hfin := hun
      unfold unitNames at hfin
      have hmap := (List.toFinset_eq_empty_iff _).mp hfin
      exact absurd (List.map_eq_nil_iff.mp hmap) hne
    · subst hnil
      simp [classify] at hc
  | ok st =>
    have hready := classify_ok_ready_iff now snap initState st hc
    have hall := classify_ok_all now snap initState st hc
    simp only [initState, eq_self_iff_true, true_and,
      Finset.empty_union] at hready hall
    have hnames : st.all_units = unitNames snap := hall
    rw [evaluate_ok now probe snap prev st hc]
    refine ⟨?_, ?_, ?_⟩
    · rw [evalStep_ready_iff]
      unfold NoDyingDeadService AllAliveStarted
      constructor
      · rintro ⟨hr, hai⟩
        obtain ⟨hA, hB⟩ := hready.mp hr
        exact ⟨hA, hB, by rw [← hnames]; exact hai⟩
      · rintro ⟨hA, hB, hu⟩
        exact ⟨hready.mpr ⟨hA, hB⟩, by rw [hnames]; exact hu⟩
    · intro hnil
      subst hnil
      have hst : st = initState := by
        simp [classify] at hc
        exact hc.symm
      subst hst
      simp [evalStep, initState]
    · rintro ⟨sv, hsv, hdd⟩ hr
      rw [evalStep_ready_iff] at hr
      have hfalse := (hready.mp hr.1).1 sv hsv
      rw [hdd] at hfalse
      cases hfalse

/-- C1 witness: the amended statement applied to the empty fleet, which
is READY. -/
theorem C1_amended_ready_iff_witness :
    (evaluate 0 exProbe [] emptyProbes).outcome = Outcome.ready :=
  (C1_amended_ready_iff 0 exProbe [] emptyProbes).2.1 rfl

/- ------------------------------------------------------------------
Claim C8.
------------------------------------------------------------------ -/

/-- C8: process exit contract.  A FAILED evaluation terminates the
process with a non-zero status carrying the diagnostic built from the
unit name and its info; a READY evaluation terminates with status 0 and
no error output; a failing collaborator command makes `run_or_die`
terminate with a non-zero status that is the command's reported code or a
default (43 for a completed command, 42 for a raised exception). -/
theorem C8_exit_contract :
    (∀ now probe snap prev u i,
      (evaluate now probe snap prev).outcome = Outcome.unitError u i →
      ∃ c d, processExit (evaluate now probe snap prev).outcome =
          some (c, some d) ∧ c ≠ 0 ∧ d = u ++ " failed: " ++ pyStr i) ∧
    (∀ now probe snap prev,
      (evaluate now probe snap prev).outcome = Outcome.ready →
      processExit (evaluate now probe snap prev).outcome = some (0, none)) ∧
    (∀ rc out err, rc ≠ 0 →
      ∃ c, run_or_die (CmdResult.completed rc out err) =
          RunOutcome.exited c ∧ c ≠ 0 ∧ (c = rc ∨ c = 43)) ∧
    (∀ rc, ∃ c, run_or_die (CmdResult.raised rc) = RunOutcome.exited c ∧
      c ≠ 0 ∧ (rc = some c ∨ c = 42)) := by
  refine ⟨?_, ?_, ?_, ?_⟩
  · intro now probe snap prev u i h
    rw [h]
    exact ⟨1, _, rfl, by decide, rfl⟩
  · intro now probe snap prev h
    rw [h]
    rfl
  · intro rc out err hrc
    refine ⟨rc, ?_, hrc, Or.inl rfl⟩
    simp [run_or_die, pyOrInt, hrc]
  · intro rc
    cases rc with
    | none => exact ⟨42, rfl, by decide, Or.inr rfl⟩
    | some c =>
      by_cases hc0 : c = 0
      · subst hc0
        exact ⟨42, by decide, by decide, Or.inr rfl⟩
      · refine ⟨c, ?_, hc0, Or.inl rfl⟩
        simp [run_or_die, pyOrInt, hc0]

/-- C8 witness: the contract applied to the error-unit snapshot (exit
status 1 with diagnostic), the empty fleet (exit 0, no error output), a
command completing with code 7, and a raised exception without a
return code (default 42). -/
theorem C8_exit_contract_witness :
    (∃ c d, processExit
        (evaluate 0 exProbe snapErrWithSince emptyProbes).outcome =
        some (c, some d) ∧ c ≠ 0 ∧
        d = "web/0" ++ " failed: " ++ pyStr (some "hook failed: install")) ∧
    processExit (evaluate 0 exProbe [] emptyProbes).outcome =
      some (0, none) ∧
    (∃ c, run_or_die (CmdResult.completed 7 "" "boom") =
      RunOutcome.exited c ∧ c ≠ 0 ∧ (c = 7 ∨ c = 43)) ∧
    (∃ c, run_or_die (CmdResult.raised none) = RunOutcome.exited c ∧
      c ≠ 0 ∧ ((none : Option Int) = some c ∨ c = 42)) :=
  ⟨C8_exit_contract.1 0 exProbe snapErrWithSince emptyProbes "web/0"
      (some "hook failed: install") (by decide),
    C8_exit_contract.2.1 0 exProbe [] emptyProbes (by decide),
    C8_exit_contract.2.2.1 7 "" "boom" (by decide),
    C8_exit_contract.2.2.2 none⟩

/- ------------------------------------------------------------------
Claim C10.
------------------------------------------------------------------ -/

/-- C10: whenever some unit of the snapshot reports agent state `error`,
the classification pass cannot complete (it aborts at an error unit with
`sys.exit(1)`, or earlier in `parse_ts` whose uncaught `TypeError` also
ends the interpreter with status 1), so the process exit status is
exactly 1 — while TransportError terminations through `run_or_die` use
the underlying command's return code or the defaults 42/43. -/
theorem C10_error_exit_code_one (now : Int) (probe : String → String)
    (snap : Snapshot) (prev : ProbeMap)
    (herr : ∃ p ∈ unitPairs snap, p.2.agentState = some "error") :
    (∃ d, processExit (evaluate now probe snap prev).outcome =
      some (1, d)) ∧
    run_or_die (CmdResult.raised none) = RunOutcome.exited 42 ∧
    run_or_die (CmdResult.raised (some 0)) = RunOutcome.exited 42 ∧
    pyOrInt 0 43 = 43 ∧
    (∀ rc out err, rc ≠ 0 →
      run_or_die (CmdResult.completed rc out err) =
        RunOutcome.exited rc) := by
  refine ⟨?_, rfl, by decide, by decide, ?_⟩
  · cases hc : classify now initState snap with
    | ok st =>
      obtain ⟨p, hp, he⟩ := herr
      exact absurd he (classify_ok_noerror now snap initState st hc p hp)
    | error e =>
      unfold evaluate
      rw [hc]
      cases e with
      | typeError => exact ⟨_, rfl⟩
      | unitError u i => exact ⟨_, rfl⟩
  · intro rc out err hrc
    simp [run_or_die, pyOrInt, hrc]

/-- C10 witness: the error-unit snapshot exits with status exactly 1; a
command completing with code 7 exits with 7. -/
theorem C10_error_exit_code_one_witness :
    (∃ d, processExit
        (evaluate 0 exProbe snapErrWithSince emptyProbes).outcome =
        some (1, d)) ∧
    run_or_die (CmdResult.completed 7 "" "") = RunOutcome.exited 7 := by
  have h := C10_error_exit_code_one 0 exProbe snapErrWithSince emptyProbes
    ⟨("web/0", errorUnitWithSince), by decide, rfl⟩
  exact ⟨h.1, h.2.2.2.2 7 "" "" (by decide)⟩

end JujuWait
